import Mathlib

/-!
Shallow embedding of the Safetec Water polling engine
(`custom_components/safetec_water/sensor.py`): the JSON value model, the
value-normalization helpers, the retrying transport, the batch-vs-per-field
snapshot assembler, and the per-hour volume tracker, together with theorems
settling the specification claims about them.

Python floats are modelled as rationals (ℚ); Python `None` and JSON `null`
coincide in the source (aiohttp decodes JSON null to None), so both are the
single constructor `JVal.null`.
-/

namespace SafetecWater

/-- Values that can appear in a decoded device JSON response (or as Python
values flowing through the normalization pipeline). -/
inductive JVal where
  | null : JVal
  | bool : Bool → JVal
  | num : ℚ → JVal
  | str : String → JVal
  | arr : List JVal → JVal
  | obj : List (String × JVal) → JVal

/-- Whether a value is the null/None value. -/
def JVal.isNull : JVal → Bool
  | .null => true
  | _ => false

/-- Whether a value is a mapping (Python `dict`). -/
def JVal.isObj : JVal → Bool
  | .obj _ => true
  | _ => false

/-- Whether a value is a string. -/
def JVal.isStr : JVal → Bool
  | .str _ => true
  | _ => false

/-- Does `hay` start with `needle`? (Char-list version.) -/
def listStartsWith : List Char → List Char → Bool
  | _, [] => true
  | [], _ :: _ => false
  | a :: as, b :: bs => a = b && listStartsWith as bs

/-- Does `hay` contain `needle` as a contiguous sublist? -/
def listContainsSub : List Char → List Char → Bool
  | [], needle => needle.isEmpty
  | c :: rest, needle => listStartsWith (c :: rest) needle || listContainsSub rest needle

/-- Upper-case a character sequence (Python `str.upper` on ASCII). -/
def upperChars (cs : List Char) : List Char :=
  cs.map Char.toUpper

/-- Python's `needle in hay` substring test. -/
def strContainsSub (hay needle : String) : Bool :=
  listContainsSub hay.toList needle.toList

/-- The sentinel test of `_normalize_api_value`: the upper-cased string
contains "ERROR" or "MIMA". -/
def sentinel_hit (s : String) : Bool :=
  listContainsSub (upperChars s.toList) "ERROR".toList
    || listContainsSub (upperChars s.toList) "MIMA".toList

/-- Embedding of `_normalize_api_value`: strings carrying a device error
sentinel become absent; every other value passes through unchanged. -/
def normalize_api_value (v : JVal) : JVal :=
  match v with
  | .str s => if sentinel_hit s then .null else .str s
  | _ => v

/-- Numeric value of a list of decimal digit characters. -/
def digitsToNat (cs : List Char) : ℕ :=
  cs.foldl (fun acc c => acc * 10 + (c.toNat - 48)) 0

/-- Whitespace characters stripped by Python's float conversion. -/
def isSpaceChar (c : Char) : Bool :=
  c = ' ' || c = '\t' || c = '\n' || c = '\r' || c = '\x0b' || c = '\x0c'

/-- Strip leading and trailing whitespace (Python `str.strip`). -/
def trimChars (cs : List Char) : List Char :=
  ((cs.dropWhile isSpaceChar).reverse.dropWhile isSpaceChar).reverse

/-- Embedding of Python `float(s)` on strings: an optional sign, a decimal
mantissa and an optional exponent, with surrounding whitespace stripped.
Non-finite literals ("inf", "nan") lie outside the rational model and are
mapped to `none`. -/
def parseFloat (s : String) : Option ℚ :=
  let cs := trimChars s.toList
  let sgn : ℚ := match cs with
    | '-' :: _ => -1
    | _ => 1
  let cs1 : List Char := match cs with
    | '+' :: rest => rest
    | '-' :: rest => rest
    | _ => cs
  let ip := cs1.takeWhile Char.isDigit
  let cs2 := cs1.dropWhile Char.isDigit
  let fp : List Char := match cs2 with
    | '.' :: rest => rest.takeWhile Char.isDigit
    | _ => []
  let cs3 : List Char := match cs2 with
    | '.' :: rest => rest.dropWhile Char.isDigit
    | _ => cs2
  if ip.isEmpty && fp.isEmpty then none
  else
    let mant : ℚ := (digitsToNat ip : ℚ) + (digitsToNat fp : ℚ) / ((10 : ℚ) ^ fp.length)
    match cs3 with
    | [] => some (sgn * mant)
    | c :: rest =>
      if c = 'e' || c = 'E' then
        let esgn : ℤ := match rest with
          | '-' :: _ => -1
          | _ => 1
        let rest1 : List Char := match rest with
          | '+' :: r => r
          | '-' :: r => r
          | _ => rest
        let ed := rest1.takeWhile Char.isDigit
        let rest2 := rest1.dropWhile Char.isDigit
        if ed.isEmpty || !rest2.isEmpty then none
        else some (sgn * mant * (10 : ℚ) ^ (esgn * (digitsToNat ed : ℤ)))
      else none

/-- Embedding of `_coerce_number`: `None` stays absent, numbers pass through,
strings go through `float()` string parsing, booleans coerce as 0/1 (Python
`float(True) = 1.0`), and containers raise `TypeError`, caught into `none`. -/
def coerce_number (v : JVal) : Option ℚ :=
  match v with
  | .null => none
  | .num q => some q
  | .str s => parseFloat s
  | .bool b => some (if b then 1 else 0)
  | .arr _ => none
  | .obj _ => none

/-- Round-half-to-even to an integer, as Python's `round` does on ties. -/
def roundHalfEven (q : ℚ) : ℤ :=
  let f := ⌊q⌋
  let r := q - (f : ℚ)
  if r < 1 / 2 then f
  else if 1 / 2 < r then f + 1
  else if f % 2 = 0 then f else f + 1

/-- Python `round(q, ndigits)` in the rational model. -/
def pyRound (q : ℚ) (ndigits : ℕ) : ℚ :=
  (roundHalfEven (q * (10 : ℚ) ^ ndigits) : ℚ) / (10 : ℚ) ^ ndigits

/-- Embedding of `_millibar_to_bar`. -/
def millibar_to_bar (v : JVal) : Option ℚ :=
  match coerce_number v with
  | none => none
  | some n => some (pyRound (n / 1000) 3)

/-- Embedding of `_milliliters_to_liters`. -/
def milliliters_to_liters (v : JVal) : Option ℚ :=
  match coerce_number v with
  | none => none
  | some n => some (pyRound (n / 1000) 3)

/-- Embedding of `_tenths_to_celsius`. -/
def tenths_to_celsius (v : JVal) : Option ℚ :=
  match coerce_number v with
  | none => none
  | some n => some (pyRound (n / 10) 1)

/-- Embedding of `_tenths_to_volts`. -/
def tenths_to_volts (v : JVal) : Option ℚ :=
  match coerce_number v with
  | none => none
  | some n => some (pyRound (n / 10) 2)

/-- Embedding of `_uscm_to_hardness`. -/
def uscm_to_hardness (v : JVal) : Option ℚ :=
  match coerce_number v with
  | none => none
  | some n => some (pyRound (n / 30) 2)

/-- Embedding of `_extract_value`: expected key first, then single-key unwrap,
then the body verbatim. -/
def extract_value (data : JVal) (key : String) : JVal :=
  match data with
  | .obj entries =>
    match entries.lookup key with
    | some v => v
    | none =>
      match entries with
      | [single] => single.2
      | _ => data
  | _ => data

/-- Lookup with Python's `dict.get` default: missing keys read as None. -/
def jGet (d : List (String × JVal)) (k : String) : JVal :=
  (d.lookup k).getD .null

/-- A coerced number back in the value world (`float` or `None`). -/
def optq : Option ℚ → JVal
  | none => .null
  | some q => .num q

/-- Embedding of `MAIN_KEY_MAP`: logical key, endpoint path, API key. -/
def MAIN_KEY_MAP : List (String × String × String) :=
  [("volume", "get/vol", "getVOL"),
   ("ltv", "get/ltv", "getLTV"),
   ("avo", "get/avo", "getAVO"),
   ("cnd", "get/cnd", "getCND"),
   ("flo", "get/flo", "getFLO"),
   ("temperature", "get/cel", "getCEL"),
   ("battery", "get/bat", "getBAT"),
   ("net", "get/net", "getNET"),
   ("wfr", "get/wfr", "getWFR"),
   ("wfs", "get/wfs", "getWFS"),
   ("wip", "get/wip", "getWIP"),
   ("wgw", "get/wgw", "getWGW"),
   ("vlv", "get/vlv", "getVLV"),
   ("firmware", "get/ver", "getVER"),
   ("serial", "get/srn", "getSRN")]

/-- Embedding of `_coerce_main_data`: the fixed fifteen-key snapshot shape,
numeric fields coerced, textual fields passed through. -/
def coerce_main_data (data : List (String × JVal)) : List (String × JVal) :=
  [("volume", optq (coerce_number (jGet data "volume"))),
   ("ltv", optq (coerce_number (jGet data "ltv"))),
   ("avo", optq (coerce_number (jGet data "avo"))),
   ("cnd", optq (coerce_number (jGet data "cnd"))),
   ("flo", optq (coerce_number (jGet data "flo"))),
   ("temperature", optq (coerce_number (jGet data "temperature"))),
   ("battery", optq (coerce_number (jGet data "battery"))),
   ("net", optq (coerce_number (jGet data "net"))),
   ("wfr", optq (coerce_number (jGet data "wfr"))),
   ("wfs", jGet data "wfs"),
   ("wip", jGet data "wip"),
   ("wgw", jGet data "wgw"),
   ("vlv", optq (coerce_number (jGet data "vlv"))),
   ("firmware", jGet data "firmware"),
   ("serial", jGet data "serial")]

/-- Embedding of `_parse_main_payload`: normalize every known field key
against one batch payload, then coerce the snapshot. -/
def parse_main_payload (payload : JVal) : List (String × JVal) :=
  coerce_main_data
    (MAIN_KEY_MAP.map (fun e => (e.1, normalize_api_value (extract_value payload e.2.2))))

/-- The liveness check of `async_fetch_main`: at least one of volume,
temperature, battery parsed as non-absent. -/
def liveness_ok (parsed : List (String × JVal)) : Bool :=
  !(jGet parsed "volume").isNull
    || !(jGet parsed "temperature").isNull
    || !(jGet parsed "battery").isNull

/-- A device behaviour oracle: for each request path and attempt number, the
terminal outcome of that single HTTP GET + JSON decode (`.ok` body on a 2xx
response with a decodable body, `.error` on a connection error, timeout,
non-2xx status or decode failure). -/
def Device : Type := String → ℕ → Except String JVal

/-- Embedding of `RETRY_ATTEMPTS`. -/
def RETRY_ATTEMPTS : ℕ := 3

/-- The retry loop of `_async_get_json`: attempts are numbered from `k`, `n`
attempts remain; the last failure is wrapped into the raised error. -/
def retry_go (attempt : ℕ → Except String JVal) (path : String) : ℕ → ℕ → Except String JVal
  | _, 0 => .error ("Error fetching " ++ path ++ ": no attempts")
  | k, 1 =>
    match attempt k with
    | .ok v => .ok v
    | .error e => .error ("Error fetching " ++ path ++ ": " ++ e)
  | k, n + 2 =>
    match attempt k with
    | .ok v => .ok v
    | .error _ => retry_go attempt path (k + 1) (n + 1)

/-- Embedding of `_async_get_json`: up to `RETRY_ATTEMPTS` attempts with
backoff, then an `UpdateFailed` carrying the last error. -/
def async_get_json (dev : Device) (path : String) : Except String JVal :=
  retry_go (dev path) path 1 RETRY_ATTEMPTS

/-- Embedding of `_async_fire_and_forget`: a single GET whose status is
checked and whose body is discarded; a failure raises `UpdateFailed`. -/
def async_fire_and_forget (dev : Device) (path : String) : Except String Unit :=
  match dev path 1 with
  | .ok _ => .ok ()
  | .error e => .error ("Error fetching " ++ path ++ ": " ++ e)

/-- The admin-trigger path issued before each main poll. -/
def ADM_PATH : String := "set/adm/(2)f"

/-- The per-field loop of `_async_fetch_main_individual`: issue one GET per
field key in `MAIN_KEY_MAP` order, normalizing each; the first terminal GET
failure propagates. Returns the outcome plus the list of requested paths. -/
def fetch_fields (dev : Device) :
    List (String × String × String) → Except String (List (String × JVal)) × List String
  | [] => (.ok [], [])
  | (lk, path, api_key) :: rest =>
    match async_get_json dev path with
    | .error e => (.error e, [path])
    | .ok payload =>
      let pr := fetch_fields dev rest
      (pr.1.map (fun d => (lk, normalize_api_value (extract_value payload api_key)) :: d),
       path :: pr.2)

/-- Embedding of `_async_fetch_main_individual`. -/
def async_fetch_main_individual (dev : Device) :
    Except String (List (String × JVal)) × List String :=
  ((fetch_fields dev MAIN_KEY_MAP).1.map coerce_main_data, (fetch_fields dev MAIN_KEY_MAP).2)

/-- Embedding of `async_fetch_main`: admin trigger, then batch `get/all`;
if the batch payload is a mapping whose parse confirms a liveness field it is
authoritative, otherwise fall back to per-field fetching. Returns the outcome
plus the list of requested paths. -/
def async_fetch_main (dev : Device) : Except String (List (String × JVal)) × List String :=
  match async_fire_and_forget dev ADM_PATH with
  | .error e => (.error e, [ADM_PATH])
  | .ok _ =>
    match async_get_json dev "get/all" with
    | .ok (.obj entries) =>
      if liveness_ok (parse_main_payload (.obj entries)) then
        (.ok (parse_main_payload (.obj entries)), [ADM_PATH, "get/all"])
      else
        ((async_fetch_main_individual dev).1,
         [ADM_PATH, "get/all"] ++ (async_fetch_main_individual dev).2)
    | .ok _ =>
      ((async_fetch_main_individual dev).1,
       [ADM_PATH, "get/all"] ++ (async_fetch_main_individual dev).2)
    | .error _ =>
      ((async_fetch_main_individual dev).1,
       [ADM_PATH, "get/all"] ++ (async_fetch_main_individual dev).2)

/-- Whether an `Except` outcome is a success. -/
def is_success {ε α : Type} : Except ε α → Bool
  | .ok _ => true
  | .error _ => false

/-- Embedding of `VolumePerHourTracker` state: clock hours are abstracted to
their hour identifier (the truncated timestamp). -/
structure VolumePerHourTracker where
  hour_start : Option ℕ
  hour_start_value : Option ℚ
deriving DecidableEq

/-- Embedding of `VolumePerHourTracker.update`: returns the new tracker state
and the emitted rate. -/
def VolumePerHourTracker.update (t : VolumePerHourTracker) (current_hour : ℕ)
    (value : Option ℚ) : VolumePerHourTracker × Option ℚ :=
  match value with
  | none => (t, none)
  | some v =>
    if t.hour_start ≠ some current_hour ∨ t.hour_start_value = none then
      ({ hour_start := some current_hour, hour_start_value := some v }, some 0)
    else
      let delta := v - t.hour_start_value.getD 0
      if delta < 0 then (t, none) else (t, some (pyRound delta 3))

/-- The fifteen logical field keys of a coerced main snapshot, in order. -/
def MAIN_FIELD_KEYS : List String :=
  ["volume", "ltv", "avo", "cnd", "flo", "temperature", "battery", "net",
   "wfr", "wfs", "wip", "wgw", "vlv", "firmware", "serial"]

/-- A device that answers every request at every attempt with an error. -/
def devC1 : Device := fun path _ =>
  if path = ADM_PATH then .ok .null
  else if path = "get/vol" then .ok (.obj [("getVOL", .num 5)])
  else .error "connection refused"

/-- A device whose admin-trigger endpoint fails while every data endpoint
serves a healthy batch payload. -/
def devC2 : Device := fun path _ =>
  if path = ADM_PATH then .error "connection refused"
  else .ok (.obj [("getVOL", .num 5), ("getCEL", .num 205), ("getBAT", .num 37)])

/-- A fully healthy device serving one batch payload everywhere. -/
def devC4 : Device := fun _ _ =>
  .ok (.obj [("getVOL", .num 5), ("getCEL", .num 205), ("getBAT", .num 37)])

/-- A healthy device used to exercise the snapshot shape invariant. -/
def devC9 : Device := fun _ _ => .ok (.obj [("getVOL", .num 1)])

/-- A healthy device on which every per-field endpoint succeeds. -/
def devC1w : Device := fun _ _ => .ok (.obj [("getVOL", .num 5)])

lemma is_success_map {α β : Type} (f : α → β) (x : Except String α) :
    is_success (x.map f) = is_success x := by
  cases x <;> rfl

lemma fetch_fields_ok_iff (dev : Device) (l : List (String × String × String)) :
    is_success (fetch_fields dev l).1 = true ↔
      ∀ e ∈ l, is_success (async_get_json dev e.2.1) = true := by
  induction l with
  | nil => simp [fetch_fields, is_success]
  | cons e rest ih =>
    obtain ⟨lk, path, api⟩ := e
    cases h : async_get_json dev path with
    | error msg =>
      simp only [fetch_fields, h]
      constructor
      · intro hfalse
        cases hfalse
      · intro hall
        have hhd := hall (lk, path, api) (List.mem_cons_self _ _)
        rw [h] at hhd
        cases hhd
    | ok payload =>
      simp only [fetch_fields, h]
      rw [is_success_map]
      rw [ih]
      constructor
      · intro hall e' he'
        rcases List.mem_cons.mp he' with rfl | hmem
        · rw [h]; rfl
        · exact hall e' hmem
      · intro hall e' he'
        exact hall e' (List.mem_cons.mpr (Or.inr he'))

lemma individual_ok_keys (dev : Device) (d : List (String × JVal))
    (h : (async_fetch_main_individual dev).1 = .ok d) :
    d.map Prod.fst = MAIN_FIELD_KEYS := by
  unfold async_fetch_main_individual at h
  cases hf : (fetch_fields dev MAIN_KEY_MAP).1 with
  | error e => rw [hf] at h; cases h
  | ok raw =>
    rw [hf] at h
    simp only [Except.map, Except.ok.injEq] at h
    rw [← h]
    rfl

/-- Claim C1, as stated: in the per-field fallback path a terminal transport
failure on the GET for one field leaves that field absent and still yields a
snapshot. Refuted: on `devC1` the per-field GET for `get/vol` succeeds, yet
the terminal failure of the next field aborts the whole fallback fetch with
an error instead of a snapshot. -/
theorem C1_counterexample :
    is_success (async_get_json devC1 "get/vol") = true ∧
    (async_fetch_main devC1).1 = .error "Error fetching get/ltv: connection refused" :=
  ⟨rfl, rfl⟩

/-- Claim C1 (amended): in the per-field fallback path a terminal transport
failure on any field's GET aborts the whole fallback fetch — the fallback
returns a snapshot exactly when every field's GET succeeds; transport
failures never surface as absent fields. -/
theorem C1_fallback_aborts_on_field_failure (dev : Device) :
    is_success (async_fetch_main_individual dev).1 = true ↔
      ∀ e ∈ MAIN_KEY_MAP, is_success (async_get_json dev e.2.1) = true := by
  unfold async_fetch_main_individual
  rw [is_success_map]
  exact fetch_fields_ok_iff dev MAIN_KEY_MAP

/-- Witness for C1 (amended): on a device where every per-field GET succeeds,
the fallback fetch returns a snapshot. -/
theorem C1_witness : is_success (async_fetch_main_individual devC1w).1 = true :=
  (C1_fallback_aborts_on_field_failure devC1w).mpr (by decide)

/-- Claim C2, as stated: a failure of the fire-and-forget admin trigger does
not by itself make the main fetch cycle fail. Refuted: on `devC2` the batch
endpoint succeeds, yet the failed admin trigger aborts the whole cycle. -/
theorem C2_counterexample :
    is_success (async_get_json devC2 "get/all") = true ∧
    (async_fetch_main devC2).1 = .error "Error fetching set/adm/(2)f: connection refused" :=
  ⟨rfl, rfl⟩

/-- Claim C2 (amended): a failure of the fire-and-forget admin-trigger GET
aborts the whole main fetch cycle before any data fetch is attempted —
`async_fetch_main` propagates the failure and requests nothing further. -/
theorem C2_adm_failure_aborts_cycle (dev : Device) (e : String)
    (h : dev ADM_PATH 1 = .error e) :
    async_fetch_main dev =
      (.error ("Error fetching " ++ ADM_PATH ++ ": " ++ e), [ADM_PATH]) := by
  unfold async_fetch_main async_fire_and_forget
  rw [h]

/-- Witness for C2 (amended) on the concrete device `devC2`. -/
theorem C2_witness :
    async_fetch_main devC2 =
      (.error ("Error fetching " ++ ADM_PATH ++ ": " ++ "connection refused"), [ADM_PATH]) :=
  C2_adm_failure_aborts_cycle devC2 "connection refused" rfl

/-- Claim C3: the rate tracker follows the hour-aligned anchor policy —
`update none` is a no-op returning absent; the first sample of a new clock
hour (or of an unanchored tracker) records the anchor and returns 0.0;
a later sample in the same hour returns `round(value − anchor, 3)` when the
delta is non-negative, and absent when the delta is negative. -/
theorem C3_tracker_hour_anchor_policy :
    (∀ (t : VolumePerHourTracker) (h : ℕ),
      t.update h none = (t, none)) ∧
    (∀ (t : VolumePerHourTracker) (h : ℕ) (v : ℚ),
      (t.hour_start ≠ some h ∨ t.hour_start_value = none) →
      t.update h (some v) = (⟨some h, some v⟩, some 0)) ∧
    (∀ (t : VolumePerHourTracker) (h : ℕ) (v a : ℚ),
      t.hour_start = some h → t.hour_start_value = some a → 0 ≤ v - a →
      t.update h (some v) = (t, some (pyRound (v - a) 3))) ∧
    (∀ (t : VolumePerHourTracker) (h : ℕ) (v a : ℚ),
      t.hour_start = some h → t.hour_start_value = some a → v - a < 0 →
      t.update h (some v) = (t, none)) := by
  refine ⟨fun t h => rfl, fun t h v hcond => ?_, fun t h v a h1 h2 hge => ?_,
    fun t h v a h1 h2 hlt => ?_⟩
  · simp only [VolumePerHourTracker.update]
    rw [if_pos hcond]
  · simp only [VolumePerHourTracker.update]
    rw [if_neg (by simp [h1, h2])]
    simp [h2, not_lt.mpr hge]
  · simp only [VolumePerHourTracker.update]
    rw [if_neg (by simp [h1, h2])]
    simp [h2, hlt]

/-- Witness for C3 at the spec's reference values: a new hour bucket at
volume 100.0 yields 0.0, a later sample at 102.5 yields 2.5, and a sample at
90.0 yields absent. -/
theorem C3_witness :
    VolumePerHourTracker.update ⟨none, none⟩ 7 none = (⟨none, none⟩, none) ∧
    VolumePerHourTracker.update ⟨none, none⟩ 7 (some 100) = (⟨some 7, some 100⟩, some 0) ∧
    VolumePerHourTracker.update ⟨some 7, some 100⟩ 7 (some 102.5) =
      (⟨some 7, some 100⟩, some 2.5) ∧
    VolumePerHourTracker.update ⟨some 7, some 100⟩ 7 (some 90) =
      (⟨some 7, some 100⟩, none) := by
  refine ⟨C3_tracker_hour_anchor_policy.1 ⟨none, none⟩ 7,
    C3_tracker_hour_anchor_policy.2.1 ⟨none, none⟩ 7 100 (Or.inr rfl), ?_,
    C3_tracker_hour_anchor_policy.2.2.2 ⟨some 7, some 100⟩ 7 90 100 rfl rfl (by norm_num)⟩
  rw [C3_tracker_hour_anchor_policy.2.2.1 ⟨some 7, some 100⟩ 7 102.5 100 rfl rfl (by norm_num)]
  norm_num [pyRound, roundHalfEven]

/-- Claim C4: a batch `get/all` response that is a mapping and parses to a
non-absent volume field is authoritative — the assembler requests only the
admin trigger and the batch endpoint, and returns the snapshot parsed from
the batch payload. -/
theorem C4_batch_authoritative (dev : Device) (u : JVal)
    (entries : List (String × JVal)) (q : ℚ)
    (hadm : dev ADM_PATH 1 = .ok u)
    (hall : async_get_json dev "get/all" = .ok (.obj entries))
    (hvol : jGet (parse_main_payload (.obj entries)) "volume" = .num q) :
    async_fetch_main dev = (.ok (parse_main_payload (.obj entries)), [ADM_PATH, "get/all"]) := by
  have hliv : liveness_ok (parse_main_payload (.obj entries)) = true := by
    simp [liveness_ok, hvol, JVal.isNull]
  unfold async_fetch_main async_fire_and_forget
  rw [hadm]
  simp only [hall, hliv, if_true]

/-- Witness for C4 on the concrete healthy device `devC4`. -/
theorem C4_witness :
    async_fetch_main devC4 =
      (.ok (parse_main_payload
        (.obj [("getVOL", .num 5), ("getCEL", .num 205), ("getBAT", .num 37)])),
       [ADM_PATH, "get/all"]) :=
  C4_batch_authoritative devC4 _ _ 5 rfl rfl rfl

/-- Claim C5: normalization filters device error sentinels — every string
whose upper-cased form contains "ERROR" or "MIMA" becomes absent; in
particular "ERROR_PWD" and "mima1" become absent while "OK" passes through
unchanged. -/
theorem C5_sentinel_filtering :
    (∀ s : String, sentinel_hit s = true → normalize_api_value (.str s) = .null) ∧
    normalize_api_value (.str "ERROR_PWD") = .null ∧
    normalize_api_value (.str "mima1") = .null ∧
    normalize_api_value (.str "OK") = .str "OK" := by
  refine ⟨fun s hs => ?_, rfl, rfl, rfl⟩
  simp [normalize_api_value, hs]

/-- Witness for C5 on a mixed-case string containing the sentinel. -/
theorem C5_witness : normalize_api_value (.str "xErrorY") = .null :=
  C5_sentinel_filtering.1 "xErrorY" rfl

/-- Claim C6: the pure unit-conversion functions meet their reference values:
205 tenths is 20.5 °C, 1234 millibar is 1.234 bar, 37 tenths is 3.7 V and
450 µS/cm is 15.0 °dH. -/
theorem C6_unit_conversions :
    tenths_to_celsius (.num 205) = some 20.5 ∧
    millibar_to_bar (.num 1234) = some 1.234 ∧
    tenths_to_volts (.num 37) = some 3.7 ∧
    uscm_to_hardness (.num 450) = some 15.0 := by
  refine ⟨?_, ?_, ?_, ?_⟩ <;>
    norm_num [tenths_to_celsius, millibar_to_bar, tenths_to_volts, uscm_to_hardness,
      coerce_number, pyRound, roundHalfEven]

/-- Claim C7: numeric coercion is total — every input yields a number or
absent, never an error; in particular `None` and "not-a-number" coerce to
absent. -/
theorem C7_coerce_number_total :
    coerce_number JVal.null = none ∧
    coerce_number (.str "not-a-number") = none ∧
    ∀ v : JVal, coerce_number v = none ∨ ∃ q, coerce_number v = some q := by
  refine ⟨rfl, rfl, fun v => ?_⟩
  cases h : coerce_number v with
  | none => exact Or.inl rfl
  | some q => exact Or.inr ⟨q, rfl⟩

/-- Claim C8: value extraction unwraps a single-key mapping regardless of its
key name, looks the expected key up directly in a mapping that carries it,
and returns any non-mapping body verbatim. -/
theorem C8_extract_value_cases :
    (∀ (k key : String) (v : JVal), extract_value (.obj [(k, v)]) key = v) ∧
    (∀ (entries : List (String × JVal)) (key : String) (v : JVal),
      entries.lookup key = some v → extract_value (.obj entries) key = v) ∧
    (∀ (v : JVal) (key : String), v.isObj = false → extract_value v key = v) := by
  refine ⟨fun k key v => ?_, fun entries key v h => ?_, fun v key h => ?_⟩
  · by_cases hk : key = k
    · subst hk
      simp [extract_value, List.lookup]
    · have hbeq : (key == k) = false := beq_eq_false_iff_ne.mpr hk
      simp [extract_value, List.lookup, hbeq]
  · simp [extract_value, h]
  · cases v <;> simp_all [extract_value, JVal.isObj]

/-- Witness for C8: a mismatched single-key body, a multi-key body carrying
the expected key, and a scalar body. -/
theorem C8_witness :
    extract_value (.obj [("weird", .num 7)]) "getVOL" = .num 7 ∧
    extract_value (.obj [("a", .num 1), ("getVOL", .num 2)]) "getVOL" = .num 2 ∧
    extract_value (.str "scalar") "getVOL" = .str "scalar" :=
  ⟨C8_extract_value_cases.1 "weird" "getVOL" (.num 7),
   C8_extract_value_cases.2.1 [("a", .num 1), ("getVOL", .num 2)] "getVOL" (.num 2) rfl,
   C8_extract_value_cases.2.2 (.str "scalar") "getVOL" rfl⟩

/-- Claim C9: every coerced main snapshot — and hence every successful main
fetch result before the derived rate field is added — carries exactly the
fifteen fixed field keys in order; absent fields are present as null, never
missing. -/
theorem C9_snapshot_key_shape :
    (∀ data, (coerce_main_data data).map Prod.fst = MAIN_FIELD_KEYS) ∧
    (∀ (dev : Device) (d : List (String × JVal)) (log : List String),
      async_fetch_main dev = (.ok d, log) → d.map Prod.fst = MAIN_FIELD_KEYS) := by
  refine ⟨fun data => rfl, fun dev d log h => ?_⟩
  unfold async_fetch_main at h
  split at h
  · cases h
  · split at h
    · split at h
      · simp only [Prod.mk.injEq, Except.ok.injEq] at h
        rw [← h.1]
        rfl
      · simp only [Prod.mk.injEq] at h
        exact individual_ok_keys dev d h.1
    · simp only [Prod.mk.injEq] at h
      exact individual_ok_keys dev d h.1
    · simp only [Prod.mk.injEq] at h
      exact individual_ok_keys dev d h.1

/-- Witness for C9: the empty raw mapping coerces to the full key list, and a
concrete successful fetch satisfies the shape invariant. -/
theorem C9_witness :
    (coerce_main_data []).map Prod.fst = MAIN_FIELD_KEYS ∧
    (parse_main_payload (.obj [("getVOL", .num 1)])).map Prod.fst = MAIN_FIELD_KEYS :=
  ⟨C9_snapshot_key_shape.1 [],
   C9_snapshot_key_shape.2 devC9 _ [ADM_PATH, "get/all"] rfl⟩

/-- Claim C10: sentinel filtering applies only to textual values —
normalization is the identity on every non-string value and on every string
free of sentinel substrings, so numeric device error codes pass through. -/
theorem C10_normalize_identity :
    (∀ v : JVal, v.isStr = false → normalize_api_value v = v) ∧
    (∀ s : String, sentinel_hit s = false → normalize_api_value (.str s) = .str s) := by
  refine ⟨fun v h => ?_, fun s h => ?_⟩
  · cases v <;> simp_all [normalize_api_value, JVal.isStr]
  · simp [normalize_api_value, h]

/-- Witness for C10: a numeric error code and a sentinel-free string both
pass through unchanged. -/
theorem C10_witness :
    normalize_api_value (.num 404) = .num 404 ∧
    normalize_api_value (.str "Check") = .str "Check" :=
  ⟨C10_normalize_identity.1 (.num 404) rfl, C10_normalize_identity.2 "Check" rfl⟩

end SafetecWater
